import Mathlib

/-!
Verification of `hyperparameter_hunter/environment.py`.

The embedding models Python values with the inductive `Value` (with Python
truthiness), an object's attribute store as a function from attribute names to
values, and the methods of `Environment` plus the module-level
`validate_file_blacklist` as explicit functions over that store, returning
`Except Err _` for code paths that raise, and collecting `G.warn` calls as
structured `Warning` values.  External collaborators that are not part of the
source file (`read_json`, `pandas.read_csv`, `CrossExperimentKeyMaker`,
`ASSETS_DIRNAME`, `RESULT_FILE_SUB_DIR_PATHS`) are modelled from the spec, as
noted on their definitions; file systems and sub-path tables are passed in as
parameters.
-/

namespace HPH

/-- A Python value, as far as `environment.py` inspects values: the `None`
singleton, booleans, numbers, strings, lists, dicts (insertion-ordered
association lists with string keys, as produced by JSON decoding and dict
literals), plain callables (functions), classes (also callable), and pandas
DataFrames abstracted to their column list (the only part of a DataFrame the
code under verification reads). -/
inductive Value where
  | none
  | bool (b : Bool)
  | nat (n : Nat)
  | str (s : String)
  | list (elems : List Value)
  | dict (entries : List (String × Value))
  | func (fname : String)
  | cls (cname : String)
  | frame (cols : List String)

/-- Python truthiness: `None`, `False`, `0`, `""`, `[]` and `{}` are falsy. -/
def truthy : Value → Bool
  | .none => false
  | .bool b => b
  | .nat n => n != 0
  | .str s => s != ""
  | .list elems => !elems.isEmpty
  | .dict entries => !entries.isEmpty
  | .func _ => true
  | .cls _ => true
  | .frame _ => true

/-- `x is None`. -/
def Value.isNone : Value → Bool
  | .none => true
  | _ => false

/-- `isinstance(x, str)`. -/
def Value.isStr : Value → Bool
  | .str _ => true
  | _ => false

/-- `x == s` for a string literal `s` (Python equality between a string and a
non-string is `False`). -/
def Value.isStrEq (v : Value) (s : String) : Bool :=
  match v with
  | .str t => t = s
  | _ => false

/-- `inspect.isclass(x)`. -/
def Value.isClass : Value → Bool
  | .cls _ => true
  | _ => false

/-- `callable(x)`: functions and classes are callable. -/
def Value.isCallable : Value → Bool
  | .func _ => true
  | .cls _ => true
  | _ => false

/-- Python `a or b`. -/
def pyOr (a b : Value) : Value :=
  if truthy a then a else b

/-- Python dict item assignment `d[k] = v`: replace the value at an existing
key in place, else append the new key at the end (insertion order). -/
def dictSet : List (String × Value) → String → Value → List (String × Value)
  | [], k, v => [(k, v)]
  | (k', v') :: rest, k, v =>
      if k' = k then (k, v) :: rest else (k', v') :: dictSet rest k v

/-- Python dict merge as in an unpacking literal: entries of `a` first, each
overridden by `b` where keys collide, then the new keys of `b` in order. -/
def mergeDict (a b : List (String × Value)) : List (String × Value) :=
  (a ++ b).foldl (fun acc kv => dictSet acc kv.1 kv.2) []

/-- Membership test `s in xs` where `xs` is a Python list of values and `s` a
string: elementwise `==` against the string. -/
def listContainsStr (xs : List Value) (s : String) : Bool :=
  xs.any (fun v => v.isStrEq s)

/-- The exceptions raised by the code under verification.  The payload of a
`TypeError`/`ValueError` is the list of values the raising `format` call embeds
in the message. -/
inductive Err where
  | typeError (payload : List Value)
  | valueError (payload : List Value)
  | keyError (key : String)
  | fileNotFound (path : String)
  | attributeError (missing : String)

/-- The `G.warn` calls the code under verification makes, with the data each
message embeds. -/
inductive Warning where
  | rootResultsPathNone
  | blacklistAll
  | protectedBlacklistEntry (entry : String)
  | invalidDefaultKey (key : String) (path : Value) (validKeys : List String)

/-- A Python object's attribute store: `getattr` is application, `setattr`
produces an updated store. -/
structure Env where
  attrs : String → Value

/-- `setattr(self, k, v)`. -/
def Env.setattr (e : Env) (k : String) (v : Value) : Env :=
  ⟨fun k' => if k' = k then v else e.attrs k'⟩

@[simp]
theorem Env.attrs_setattr (e : Env) (k k' : String) (v : Value) :
    (e.setattr k v).attrs k' = if k' = k then v else e.attrs k' := rfl

/-- The keyword-only parameters of `Environment.__init__`, in signature order:
the value of `allowed_parameter_keys` in `update_custom_environment_params`. -/
def allowedParameterKeys : List String :=
  ["root_results_path", "holdout_dataset", "test_dataset", "target_column",
   "id_column", "do_predict_proba", "prediction_formatter", "metrics_map",
   "metrics_params", "cross_validation_type", "runs", "global_random_seed",
   "random_seeds", "random_seed_bounds", "cross_validation_params", "verbose",
   "file_blacklist", "reporting_handler_params", "to_csv_params",
   "do_full_save", "experiment_callbacks"]

/-- `Environment.DEFAULT_PARAMS`. -/
def DEFAULT_PARAMS : List (String × Value) :=
  [("environment_params_path", .none),
   ("root_results_path", .none),
   ("target_column", .str "target"),
   ("id_column", .none),
   ("do_predict_proba", .bool false),
   ("prediction_formatter", .func "format_predictions"),
   ("metrics_map", .none),
   ("metrics_params", .dict []),
   ("cross_validation_type", .cls "KFold"),
   ("runs", .nat 1),
   ("global_random_seed", .nat 32),
   ("random_seeds", .none),
   ("random_seed_bounds", .list [.nat 0, .nat 100000]),
   ("cross_validation_params", .dict []),
   ("verbose", .bool true),
   ("file_blacklist", .none),
   ("reporting_handler_params",
     .dict [("heartbeat_path", .none), ("float_format", .str "\x7b:.5f\x7d"),
            ("console_params", .none), ("heartbeat_params", .none)]),
   ("to_csv_params", .dict []),
   ("do_full_save", .func "default_do_full_save")]

/-- The initial `self.result_paths` dict built in `Environment.__init__`. -/
def resultPathsInit (root : Value) : List (String × Value) :=
  [("root", root), ("checkpoint", .none), ("description", .none),
   ("heartbeat", .none), ("predictions_holdout", .none),
   ("predictions_in_fold", .none), ("predictions_oof", .none),
   ("predictions_test", .none), ("script_backup", .none),
   ("tested_keys", .none), ("key_attribute_lookup", .none),
   ("leaderboards", .none), ("global_leaderboard", .none)]

/-- The keys of the Result Path Catalogue, in the order of `resultPathsInit`. -/
def resultPathKeys : List String :=
  (resultPathsInit .none).map Prod.fst

/-- The arguments of a call to `Environment.__init__`; every parameter of the
signature defaults to `None` (unsupplied). -/
structure Kwargs where
  train_dataset : Value := .none
  environment_params_path : Value := .none
  root_results_path : Value := .none
  holdout_dataset : Value := .none
  test_dataset : Value := .none
  target_column : Value := .none
  id_column : Value := .none
  do_predict_proba : Value := .none
  prediction_formatter : Value := .none
  metrics_map : Value := .none
  metrics_params : Value := .none
  cross_validation_type : Value := .none
  runs : Value := .none
  global_random_seed : Value := .none
  random_seeds : Value := .none
  random_seed_bounds : Value := .none
  cross_validation_params : Value := .none
  verbose : Value := .none
  file_blacklist : Value := .none
  reporting_handler_params : Value := .none
  to_csv_params : Value := .none
  do_full_save : Value := .none
  experiment_callbacks : Value := .none

/-- The caller-supplied value of a keyword-only option, by name. -/
def kwGet (kw : Kwargs) : String → Value
  | "root_results_path" => kw.root_results_path
  | "holdout_dataset" => kw.holdout_dataset
  | "test_dataset" => kw.test_dataset
  | "target_column" => kw.target_column
  | "id_column" => kw.id_column
  | "do_predict_proba" => kw.do_predict_proba
  | "prediction_formatter" => kw.prediction_formatter
  | "metrics_map" => kw.metrics_map
  | "metrics_params" => kw.metrics_params
  | "cross_validation_type" => kw.cross_validation_type
  | "runs" => kw.runs
  | "global_random_seed" => kw.global_random_seed
  | "random_seeds" => kw.random_seeds
  | "random_seed_bounds" => kw.random_seed_bounds
  | "cross_validation_params" => kw.cross_validation_params
  | "verbose" => kw.verbose
  | "file_blacklist" => kw.file_blacklist
  | "reporting_handler_params" => kw.reporting_handler_params
  | "to_csv_params" => kw.to_csv_params
  | "do_full_save" => kw.do_full_save
  | "experiment_callbacks" => kw.experiment_callbacks
  | _ => .none

/-- The attribute assignments of `Environment.__init__` (everything before the
call to `environment_workflow`): most keyword arguments are stored verbatim,
but `reporting_handler_params`, `to_csv_params` and `experiment_callbacks` are
normalized with `or {}` / `or []`, and `result_paths`,
`cross_experiment_params`, `current_task` and `cross_experiment_key` are
initialized fresh. -/
def initEnv (kw : Kwargs) : Env :=
  ⟨fun k =>
    match k with
    | "environment_params_path" => kw.environment_params_path
    | "root_results_path" => kw.root_results_path
    | "train_dataset" => kw.train_dataset
    | "holdout_dataset" => kw.holdout_dataset
    | "test_dataset" => kw.test_dataset
    | "target_column" => kw.target_column
    | "id_column" => kw.id_column
    | "do_predict_proba" => kw.do_predict_proba
    | "prediction_formatter" => kw.prediction_formatter
    | "metrics_map" => kw.metrics_map
    | "metrics_params" => kw.metrics_params
    | "cross_experiment_params" => .dict []
    | "cross_validation_type" => kw.cross_validation_type
    | "runs" => kw.runs
    | "global_random_seed" => kw.global_random_seed
    | "random_seeds" => kw.random_seeds
    | "random_seed_bounds" => kw.random_seed_bounds
    | "cross_validation_params" => kw.cross_validation_params
    | "verbose" => kw.verbose
    | "file_blacklist" => kw.file_blacklist
    | "reporting_handler_params" => pyOr kw.reporting_handler_params (.dict [])
    | "to_csv_params" => pyOr kw.to_csv_params (.dict [])
    | "do_full_save" => kw.do_full_save
    | "experiment_callbacks" => pyOr kw.experiment_callbacks (.list [])
    | "result_paths" => .dict (resultPathsInit kw.root_results_path)
    | "current_task" => .none
    | "cross_experiment_key" => .none
    | _ => .none⟩

/-- Modelled from the spec: `read_json` from `utils.file_utils` (not part of
the source file under verification).  Per the spec, the loader raises a
not-found error when the path does not resolve to a file, and — because
`update_custom_environment_params` relies on it raising a `TypeError` for the
`None` path it then swallows — a type error when the path is not a string.  A
file system is a map from paths to the decoded content of the file there. -/
def read_json (fs : String → Option Value) (path : Value) : Except Err Value :=
  match path with
  | .str p =>
      match fs p with
      | some v => .ok v
      | Option.none => .error (.fileNotFound p)
  | v => .error (.typeError [v])

/-- The `try: user_defaults = read_json(...)` block: a `TypeError` is swallowed
exactly when `environment_params_path` is `None` (leaving `user_defaults` as
the empty dict); `FileNotFoundError` is re-raised. -/
def readUserDefaults (fs : String → Option Value) (path : Value) :
    Except Err Value :=
  match read_json fs path with
  | .ok v => .ok v
  | .error (.typeError payload) =>
      if path.isNone then .ok (.dict []) else .error (.typeError payload)
  | .error err => .error err

/-- The `for k, v in user_defaults.items()` loop: keys outside
`allowed_parameter_keys` are warned about (with the valid key list embedded in
the message) and otherwise ignored; keys whose current attribute is `None` are
set from the file. -/
def applyUserDefaults (path : Value) :
    List (String × Value) → Env → Env × List Warning
  | [], e => (e, [])
  | (k, v) :: rest, e =>
      if k ∈ allowedParameterKeys then
        if (e.attrs k).isNone then
          applyUserDefaults path rest (e.setattr k v)
        else
          applyUserDefaults path rest e
      else
        let (e', ws) := applyUserDefaults path rest e
        (e', .invalidDefaultKey k path allowedParameterKeys :: ws)

/-- The final loop of `update_custom_environment_params`: any still-`None`
allowed attribute is set to `DEFAULT_PARAMS.get(k, None)`. -/
def applyModuleDefaults : List String → Env → Env
  | [], e => e
  | k :: rest, e =>
      if (e.attrs k).isNone then
        applyModuleDefaults rest
          (e.setattr k ((List.lookup k DEFAULT_PARAMS).getD .none))
      else
        applyModuleDefaults rest e

/-- `Environment.update_custom_environment_params`. -/
def updateCustomEnvironmentParams (fs : String → Option Value) (e : Env) :
    Except Err (Env × List Warning) :=
  let path := e.attrs "environment_params_path"
  if !path.isStr && !path.isNone then
    .error (.typeError [path])
  else
    match readUserDefaults fs path with
    | .error err => .error err
    | .ok (.dict d) =>
        let (e1, ws) := applyUserDefaults path d e
        .ok (applyModuleDefaults allowedParameterKeys e1, ws)
    | .ok v => .error (.typeError [v])

/-- `valid_values` in `validate_file_blacklist`; note that the source comments
out the `checkpoint` entry and lists none of `key_attribute_lookup`,
`leaderboards` or `global_leaderboard`. -/
def valid_values : List String :=
  ["description", "heartbeat", "predictions_holdout", "predictions_in_fold",
   "predictions_oof", "predictions_test", "script_backup", "tested_keys"]

/-- The per-entry loop of `validate_file_blacklist`: a value outside
`valid_values` raises a `ValueError` naming it; the two protected entries warn. -/
def checkBlacklistEntries : List Value → Except Err (List Warning)
  | [] => .ok []
  | .str s :: rest =>
      if s ∈ valid_values then
        match checkBlacklistEntries rest with
        | .ok ws =>
            .ok ((if s = "description" ∨ s = "tested_keys" then
                    [Warning.protectedBlacklistEntry s] else []) ++ ws)
        | .error err => .error err
      else .error (.valueError [.str s])
  | v :: _ => .error (.typeError [v])

/-- `validate_file_blacklist` (module-level function). -/
def validate_file_blacklist (blacklist : Value) :
    Except Err (Value × List Warning) :=
  if blacklist.isStrEq "ALL" then
    .ok (blacklist, [.blacklistAll])
  else if !truthy blacklist then
    .ok (.list [], [])
  else
    match blacklist with
    | .list xs =>
        if xs.all Value.isStr then
          match checkBlacklistEntries xs with
          | .ok ws => .ok (.list xs, ws)
          | .error err => .error err
        else
          .error (.typeError (xs.filter (fun v => !v.isStr)))
    | v => .error (.typeError [v])

/-- Modelled from the spec: `ASSETS_DIRNAME` from `settings` (not part of the
source file under verification) — the fixed assets-directory name appended to
any root path that does not already end with it. -/
def ASSETS_DIRNAME : String := "HyperparameterHunterAssets"

/-- `os.path.join` for the plain relative components this code joins. -/
def joinPath (a b : String) : String := a ++ "/" ++ b

/-- Write one entry of `self.result_paths`. -/
def setResultPath (e : Env) (k : String) (v : Value) : Env :=
  match e.attrs "result_paths" with
  | .dict d => e.setattr "result_paths" (.dict (dictSet d k v))
  | _ => e

/-- The `root_results_path` section of `validate_parameters`: warn when `None`,
normalize a string to end with the assets directory name (mirroring the new
value into `result_paths["root"]`), and raise a `TypeError` otherwise.  The
`os.makedirs` side effect touches only the file system, not the object. -/
def validateRootResultsPath (e : Env) : Except Err (Env × List Warning) :=
  match e.attrs "root_results_path" with
  | .none => .ok (e, [.rootResultsPathNone])
  | .str s =>
      if s.endsWith ASSETS_DIRNAME then .ok (e, [])
      else
        let s' := joinPath s ASSETS_DIRNAME
        .ok (setResultPath (e.setattr "root_results_path" (.str s'))
              "root" (.str s'), [])
  | v => .error (.typeError [v])

/-- The dataset-loading section of `validate_parameters`: a string
`train_dataset` or `test_dataset` is read as a csv (frame) from the file
system `csvFs`, which maps a path to the column list of the table stored
there. -/
def loadStrDatasets (csvFs : String → Option (List String)) (e : Env) :
    Except Err Env :=
  match
    (match e.attrs "train_dataset" with
     | .str p =>
         match csvFs p with
         | some cols => Except.ok (e.setattr "train_dataset" (.frame cols))
         | Option.none => Except.error (Err.fileNotFound p)
     | _ => Except.ok e) with
  | .error err => .error err
  | .ok e1 =>
      match e1.attrs "test_dataset" with
      | .str p =>
          match csvFs p with
          | some cols => .ok (e1.setattr "test_dataset" (.frame cols))
          | Option.none => .error (.fileNotFound p)
      | _ => .ok e1

/-- The `metrics_params`/`metrics_map` section of `validate_parameters`:
mutual-exclusion `ValueError` naming both values, `metrics_params["metrics_map"]`
lookup (a `KeyError` when absent) when no direct registry was given, then the
merge of the registry back into `metrics_params` under the reserved key. -/
def validateMetrics (e : Env) : Except Err Env :=
  match e.attrs "metrics_params" with
  | .dict mp =>
      let mm := e.attrs "metrics_map"
      if !mm.isNone && (List.lookup "metrics_map" mp).isSome then
        .error (.valueError [mm, .dict mp])
      else
        match
          (if mm.isNone then
             match List.lookup "metrics_map" mp with
             | some v => Except.ok v
             | Option.none => Except.error (Err.keyError "metrics_map")
           else Except.ok mm) with
        | .error err => .error err
        | .ok mm' =>
            .ok ((e.setattr "metrics_map" mm').setattr "metrics_params"
                  (.dict (mergeDict [("metrics_map", mm')] mp)))
  | _ => .error (.attributeError "keys")

/-- The `to_csv_params` section of `validate_parameters`: strip any
`path_or_buf` key. -/
def validateToCsvParams (e : Env) : Except Err Env :=
  match e.attrs "to_csv_params" with
  | .dict d =>
      .ok (e.setattr "to_csv_params"
            (.dict (d.filter (fun kv => kv.1 ≠ "path_or_buf"))))
  | _ => .error (.attributeError "items")

/-- The `cross_experiment_params` snapshot taken in `validate_parameters`. -/
def snapshotCrossExperimentParams (e : Env) : Env :=
  e.setattr "cross_experiment_params"
    (.dict [("cross_validation_type", e.attrs "cross_validation_type"),
            ("runs", e.attrs "runs"),
            ("global_random_seed", e.attrs "global_random_seed"),
            ("random_seeds", e.attrs "random_seeds"),
            ("random_seed_bounds", e.attrs "random_seed_bounds")])

/-- The per-callback loop of the `experiment_callbacks` section: every entry
must be a class, and its name must be `LambdaCallback`. -/
def checkCallbacks : List Value → Except Err Unit
  | [] => .ok ()
  | .cls n :: rest =>
      if n = "LambdaCallback" then checkCallbacks rest
      else .error (.valueError [.cls n])
  | v :: _ => .error (.typeError [v])

/-- The `experiment_callbacks` section of `validate_parameters`: a non-list is
wrapped into a singleton list, then every entry is checked. -/
def validateExperimentCallbacks (e : Env) : Except Err Env :=
  let cbs :=
    match e.attrs "experiment_callbacks" with
    | .list xs => xs
    | v => [v]
  match checkCallbacks cbs with
  | .ok _ => .ok (e.setattr "experiment_callbacks" (.list cbs))
  | .error err => .error err

/-- `Environment.validate_parameters`, section by section in source order. -/
def validate_parameters (csvFs : String → Option (List String)) (e : Env) :
    Except Err (Env × List Warning) :=
  match validateRootResultsPath e with
  | .error err => .error err
  | .ok (e1, ws1) =>
      match e1.attrs "verbose" with
      | .bool _ =>
          match validate_file_blacklist (e1.attrs "file_blacklist") with
          | .error err => .error err
          | .ok (bl, ws2) =>
              let e2 := e1.setattr "file_blacklist" bl
              match loadStrDatasets csvFs e2 with
              | .error err => .error err
              | .ok e3 =>
                  match validateMetrics e3 with
                  | .error err => .error err
                  | .ok e4 =>
                      match validateToCsvParams e4 with
                      | .error err => .error err
                      | .ok e5 =>
                          match validateExperimentCallbacks
                                  (snapshotCrossExperimentParams e5) with
                          | .error err => .error err
                          | .ok e6 => .ok (e6, ws1 ++ ws2)
      | v => .error (.typeError [v])

/-- `Environment.define_holdout_set`.  `applyF` interprets the call of a
callable holdout specification (by name) on the training table and target
column, returning the new `(train, holdout)` pair; `csvFs` is the csv file
system as in `loadStrDatasets`. -/
def define_holdout_set (applyF : String → Value → Value → Value × Value)
    (csvFs : String → Option (List String)) (e : Env) : Except Err Env :=
  match
    (match e.attrs "holdout_dataset" with
     | .func n =>
         let th := applyF n (e.attrs "train_dataset") (e.attrs "target_column")
         Except.ok ((e.setattr "train_dataset" th.1).setattr
                      "holdout_dataset" th.2)
     | .cls n =>
         let th := applyF n (e.attrs "train_dataset") (e.attrs "target_column")
         Except.ok ((e.setattr "train_dataset" th.1).setattr
                      "holdout_dataset" th.2)
     | .str p =>
         match csvFs p with
         | some cols => Except.ok (e.setattr "holdout_dataset" (.frame cols))
         | Option.none => Except.error (Err.fileNotFound p)
     | .none => Except.ok e
     | .frame _ => Except.ok e
     | v => Except.error (Err.typeError [v])) with
  | .error err => .error err
  | .ok e1 =>
      if (e1.attrs "holdout_dataset").isNone then .ok e1
      else
        match e1.attrs "train_dataset", e1.attrs "holdout_dataset" with
        | .frame tc, .frame hc =>
            if tc = hc then .ok e1
            else
              .error (.valueError
                [.nat tc.length, .list (tc.map .str),
                 .nat hc.length, .list (hc.map .str)])
        | _, _ => .error (.attributeError "columns")

/-- `Environment.format_result_paths`.  `subPaths` is the
`RESULT_FILE_SUB_DIR_PATHS` table — modelled from the spec as a parameter,
since `settings` is not part of the source file under verification: a fixed
per-category relative sub-path, total on the catalogue keys. -/
def format_result_paths (subPaths : String → String) (e : Env) :
    Except Err Env :=
  if (e.attrs "file_blacklist").isStrEq "ALL" then .ok e
  else if (e.attrs "root_results_path").isNone then .ok e
  else
    match e.attrs "file_blacklist" with
    | .list bl0 =>
        let bl := (bl0 ++
          (if (e.attrs "holdout_dataset").isNone then
             [Value.str "predictions_holdout"] else [])) ++
          (if (e.attrs "test_dataset").isNone then
             [Value.str "predictions_test"] else [])
        match e.attrs "root_results_path", e.attrs "result_paths" with
        | .str r, .dict rp =>
            .ok ((e.setattr "file_blacklist" (.list bl)).setattr "result_paths"
                  (.dict (rp.map (fun kv =>
                    (kv.1,
                     if kv.1 = "root" then kv.2
                     else if listContainsStr bl kv.1 then Value.none
                     else Value.str (joinPath r (subPaths kv.1)))))))
        | v, _ => .error (.typeError [v])
    | _ => .error (.attributeError "append")

/-- Modelled from the spec: the external `CrossExperimentKeyMaker`
fingerprinting collaborator — a deterministic function of the projected
parameters. -/
def make_identity (projection : Value) : Value :=
  .list [.str "cross_experiment_key", projection]

/-- `Environment.generate_cross_experiment_key`. -/
def generate_cross_experiment_key (e : Env) : Env :=
  e.setattr "cross_experiment_key"
    (make_identity (.dict
      [("metrics_params", e.attrs "metrics_params"),
       ("cross_validation_params", e.attrs "cross_validation_params"),
       ("target_column", e.attrs "target_column"),
       ("id_column", e.attrs "id_column"),
       ("do_predict_proba", e.attrs "do_predict_proba"),
       ("prediction_formatter", e.attrs "prediction_formatter"),
       ("train_dataset", e.attrs "train_dataset"),
       ("test_dataset", e.attrs "test_dataset"),
       ("holdout_dataset", e.attrs "holdout_dataset"),
       ("cross_experiment_params", e.attrs "cross_experiment_params"),
       ("to_csv_params", e.attrs "to_csv_params")]))

/-- The outcome of running `Environment.__init__`: the process-wide `G.Env`
reference after the call, and the propagated result of
`environment_workflow`. -/
structure RunOutcome where
  gEnv : Option Env
  result : Except Err (Env × List Warning)

/-- `Environment.__init__`: attribute assignment (with `G.Env = self` as the
very first statement of the constructor body), then `environment_workflow`,
whose stages run in fixed order and whose first error propagates.  On an
error, `G.Env` keeps pointing at the record in the state it had reached. -/
def environmentInit (fs : String → Option Value)
    (csvFs : String → Option (List String))
    (applyF : String → Value → Value → Value × Value)
    (subPaths : String → String) (kw : Kwargs) : RunOutcome :=
  let e0 := initEnv kw
  match updateCustomEnvironmentParams fs e0 with
  | .error err => ⟨some e0, .error err⟩
  | .ok (e1, ws1) =>
      match validate_parameters csvFs e1 with
      | .error err => ⟨some e1, .error err⟩
      | .ok (e2, ws2) =>
          match define_holdout_set applyF csvFs e2 with
          | .error err => ⟨some e2, .error err⟩
          | .ok e3 =>
              match format_result_paths subPaths e3 with
              | .error err => ⟨some e3, .error err⟩
              | .ok e4 =>
                  let e5 := generate_cross_experiment_key e4
                  ⟨some e5, .ok (e5, ws1 ++ ws2)⟩

/-! ## Helper definitions for stating and proving the claims -/

/-- `x` is a Python list. -/
def Value.isList : Value → Bool
  | .list _ => true
  | _ => false

/-- Project the environment out of a non-raising run (dummy empty store on an
error). -/
def okEnv (r : Except Err (Env × List Warning)) : Env :=
  match r with
  | .ok (e, _) => e
  | .error _ => ⟨fun _ => Value.none⟩

/-- Project the warnings out of a non-raising run. -/
def okWarnings (r : Except Err (Env × List Warning)) : List Warning :=
  match r with
  | .ok (_, ws) => ws
  | .error _ => []

/-- Whether a run raised no exception. -/
def exceptIsOk {α : Type} (r : Except Err α) : Bool :=
  match r with
  | .ok _ => true
  | .error _ => false

/-! ## Basic lemmas -/

theorem Value.isNone_eq_true_iff (v : Value) : v.isNone = true ↔ v = Value.none := by
  cases v <;> simp [Value.isNone]

theorem Value.isNone_eq_false_iff (v : Value) : v.isNone = false ↔ v ≠ Value.none := by
  cases v <;> simp [Value.isNone]

theorem isStrEq_ALL_of_not_truthy (v : Value) (h : truthy v = false) :
    v.isStrEq "ALL" = false := by
  cases v <;> simp_all [truthy, Value.isStrEq]

/-! ## C10: falsy blacklists normalize to the empty list -/

/-- Claim C10: `validate_file_blacklist` normalizes every falsy non-`"ALL"`
input — not only `None` but also an empty list, an empty string, zero, or an
empty mapping — to the empty list and succeeds; the fatal `TypeError` for a
non-list blacklist is raised only for truthy non-list values. -/
theorem C10_falsy_blacklist (v : Value) :
    (truthy v = false → validate_file_blacklist v = .ok (.list [], []))
  ∧ (truthy v = true → v.isList = false → v.isStrEq "ALL" = false →
      validate_file_blacklist v = .error (.typeError [v])) := by
  constructor
  · intro h
    simp [validate_file_blacklist, isStrEq_ALL_of_not_truthy v h, h]
  · intro h1 h2 h3
    cases v <;> simp_all [validate_file_blacklist, Value.isList]

/-- Witness for C10 at the falsy empty dict and the truthy non-list `14`. -/
theorem C10_falsy_blacklist_witness :
    validate_file_blacklist (.dict []) = .ok (.list [], [])
  ∧ validate_file_blacklist (.nat 14) = .error (.typeError [.nat 14]) :=
  ⟨(C10_falsy_blacklist (.dict [])).1 rfl,
   (C10_falsy_blacklist (.nat 14)).2 rfl rfl rfl⟩

/-! ## C5: which blacklist entries are accepted -/

theorem checkBlacklistEntries_isOk (xs : List Value) :
    exceptIsOk (checkBlacklistEntries xs) = true ↔
      ∀ v ∈ xs, ∃ s, v = Value.str s ∧ s ∈ valid_values := by
  induction xs with
  | nil => simp [checkBlacklistEntries, exceptIsOk]
  | cons v rest ih =>
      cases v with
      | str s =>
          by_cases hs : s ∈ valid_values
          · rw [checkBlacklistEntries, if_pos hs]
            cases hrec : checkBlacklistEntries rest with
            | ok ws => simp_all [exceptIsOk]
            | error err => simp_all [exceptIsOk]
          · rw [checkBlacklistEntries, if_neg hs]
            simp only [exceptIsOk, List.mem_cons, Bool.false_eq_true, false_iff]
            intro hall
            obtain ⟨s', hs', hv'⟩ := hall (.str s) (Or.inl rfl)
            cases hs'
            exact hs hv'
      | none => simp [checkBlacklistEntries, exceptIsOk]
      | bool b => simp [checkBlacklistEntries, exceptIsOk]
      | nat n => simp [checkBlacklistEntries, exceptIsOk]
      | list elems => simp [checkBlacklistEntries, exceptIsOk]
      | dict entries => simp [checkBlacklistEntries, exceptIsOk]
      | func fname => simp [checkBlacklistEntries, exceptIsOk]
      | cls cname => simp [checkBlacklistEntries, exceptIsOk]
      | frame cols => simp [checkBlacklistEntries, exceptIsOk]

theorem checkBlacklistEntries_first_invalid (xs : List Value)
    (hstr : ∀ v ∈ xs, v.isStr = true)
    (hbad : ∃ s, Value.str s ∈ xs ∧ s ∉ valid_values) :
    ∃ s, checkBlacklistEntries xs = .error (.valueError [.str s]) ∧
      Value.str s ∈ xs ∧ s ∉ valid_values := by
  induction xs with
  | nil => obtain ⟨s, hs, _⟩ := hbad; cases hs
  | cons v rest ih =>
      cases v with
      | str s0 =>
          by_cases hs0 : s0 ∈ valid_values
          · obtain ⟨s, hs, hnv⟩ := hbad
            have hsrest : Value.str s ∈ rest := by
              rcases List.mem_cons.mp hs with heq | hmem
              · cases heq; exact absurd hs0 hnv
              · exact hmem
            obtain ⟨s', heq', hmem', hnv'⟩ :=
              ih (fun v hv => hstr v (List.mem_cons_of_mem _ hv)) ⟨s, hsrest, hnv⟩
            refine ⟨s', ?_, List.mem_cons_of_mem _ hmem', hnv'⟩
            rw [checkBlacklistEntries, if_pos hs0, heq']
          · exact ⟨s0, by rw [checkBlacklistEntries, if_neg hs0],
              List.mem_cons_self _ _, hs0⟩
      | none => exact absurd (hstr .none (List.mem_cons_self _ _)) (by simp [Value.isStr])
      | bool b => exact absurd (hstr (.bool b) (List.mem_cons_self _ _)) (by simp [Value.isStr])
      | nat n => exact absurd (hstr (.nat n) (List.mem_cons_self _ _)) (by simp [Value.isStr])
      | list elems => exact absurd (hstr (.list elems) (List.mem_cons_self _ _)) (by simp [Value.isStr])
      | dict entries => exact absurd (hstr (.dict entries) (List.mem_cons_self _ _)) (by simp [Value.isStr])
      | func fname => exact absurd (hstr (.func fname) (List.mem_cons_self _ _)) (by simp [Value.isStr])
      | cls cname => exact absurd (hstr (.cls cname) (List.mem_cons_self _ _)) (by simp [Value.isStr])
      | frame cols => exact absurd (hstr (.frame cols) (List.mem_cons_self _ _)) (by simp [Value.isStr])

/-- Claim C5 (counterexample): `checkpoint` is a Result Path Catalogue category
other than the root, yet `validate_file_blacklist` rejects the blacklist
`["checkpoint"]` with a fatal `ValueError` — so the accepted entries are not
the whole catalogue minus root. -/
theorem C5_counterexample :
    "checkpoint" ∈ resultPathKeys ∧ "checkpoint" ≠ "root" ∧
      validate_file_blacklist (.list [.str "checkpoint"])
        = .error (.valueError [.str "checkpoint"]) :=
  ⟨by decide, by decide, rfl⟩

/-- Reduction of `validate_file_blacklist` on a non-empty list: neither the
`"ALL"` check nor the falsy check fires, only the entry validation remains. -/
theorem validate_list_cons (v : Value) (rest : List Value) :
    validate_file_blacklist (.list (v :: rest)) =
      if (v :: rest).all Value.isStr = true then
        match checkBlacklistEntries (v :: rest) with
        | .ok ws => .ok (.list (v :: rest), ws)
        | .error err => .error err
      else .error (.typeError ((v :: rest).filter (fun x => !x.isStr))) := rfl

/-- Claim C5 (amended): `validate_file_blacklist` accepts exactly the `"ALL"`
sentinel, falsy input (normalized to an empty list), or a list of strings each
drawn from the eight-element `valid_values` set — `description`, `heartbeat`,
the four prediction variants, `script_backup` and `tested_keys`, i.e. the
catalogue minus the root AND minus `checkpoint`, `key_attribute_lookup`,
`leaderboards` and `global_leaderboard`, which are all rejected.  A list with a
non-string entry raises a fatal `TypeError` naming the offenders, and an
all-string list with an out-of-set entry raises a fatal `ValueError` naming an
offending entry. -/
theorem C5_blacklist_valid_values :
    validate_file_blacklist (.str "ALL") = .ok (.str "ALL", [.blacklistAll])
  ∧ validate_file_blacklist Value.none = .ok (.list [], [])
  ∧ (∀ xs : List Value,
      (exceptIsOk (validate_file_blacklist (.list xs)) = true ↔
        ∀ v ∈ xs, ∃ s, v = Value.str s ∧ s ∈ valid_values))
  ∧ (∀ s ∈ valid_values,
      ∃ ws, validate_file_blacklist (.list [.str s]) = .ok (.list [.str s], ws))
  ∧ (∀ xs : List Value, (∃ v ∈ xs, v.isStr = false) →
      validate_file_blacklist (.list xs)
        = .error (.typeError (xs.filter (fun v => !v.isStr))))
  ∧ (∀ xs : List Value, (∀ v ∈ xs, v.isStr = true) →
      (∃ s, Value.str s ∈ xs ∧ s ∉ valid_values) →
      ∃ s, validate_file_blacklist (.list xs) = .error (.valueError [.str s]) ∧
        Value.str s ∈ xs ∧ s ∉ valid_values)
  ∧ (∀ s ∈ (["checkpoint", "key_attribute_lookup", "leaderboards",
              "global_leaderboard"] : List String),
      validate_file_blacklist (.list [.str s])
        = .error (.valueError [.str s])) := by
  refine ⟨rfl, rfl, ?_, ?_, ?_, ?_, ?_⟩
  · intro xs
    cases xs with
    | nil => exact ⟨fun _ v hv => absurd hv (by simp), fun _ => rfl⟩
    | cons v rest =>
        rw [validate_list_cons]
        by_cases hall : (v :: rest).all Value.isStr = true
        · rw [if_pos hall, ← checkBlacklistEntries_isOk]
          cases hrec : checkBlacklistEntries (v :: rest) with
          | ok ws => exact Iff.rfl
          | error err => exact Iff.rfl
        · rw [if_neg hall]
          constructor
          · intro h; exact Bool.noConfusion h
          · intro hctr
            exact absurd (List.all_eq_true.mpr (fun v' hv' => by
              obtain ⟨s, hs, _⟩ := hctr v' hv'
              rw [hs]; rfl)) hall
  · intro s hs
    refine ⟨(if s = "description" ∨ s = "tested_keys" then
              [Warning.protectedBlacklistEntry s] else []) ++ [], ?_⟩
    rw [validate_list_cons,
      if_pos (show [Value.str s].all Value.isStr = true from rfl)]
    have hc : checkBlacklistEntries [.str s]
        = .ok ((if s = "description" ∨ s = "tested_keys" then
                  [Warning.protectedBlacklistEntry s] else []) ++ []) := by
      simp only [checkBlacklistEntries, if_pos hs]
    rw [hc]
  · intro xs hbad
    obtain ⟨v, hv, hns⟩ := hbad
    cases xs with
    | nil => cases hv
    | cons w rest =>
        rw [validate_list_cons]
        rw [if_neg (fun hctr => by
          have := List.all_eq_true.mp hctr v hv
          rw [hns] at this
          exact Bool.noConfusion this)]
  · intro xs hstr hbad
    obtain ⟨s, heq, hmem, hnv⟩ := checkBlacklistEntries_first_invalid xs hstr hbad
    refine ⟨s, ?_, hmem, hnv⟩
    cases xs with
    | nil => cases hmem
    | cons w rest =>
        rw [validate_list_cons, if_pos (List.all_eq_true.mpr hstr), heq]
  · intro s hs
    fin_cases hs <;> rfl

/-- Witness for C5 at concrete inputs: the valid entry `heartbeat` is accepted
as a singleton blacklist, a list containing the non-string `14` is rejected
with a `TypeError` naming it, an all-string list containing `foo` is rejected
with a `ValueError`, and the catalogue category `key_attribute_lookup` is
rejected. -/
theorem C5_blacklist_valid_values_witness :
    exceptIsOk (validate_file_blacklist (.list [.str "heartbeat"])) = true
  ∧ validate_file_blacklist (.list [.str "heartbeat", .nat 14])
      = .error (.typeError ([Value.str "heartbeat", Value.nat 14].filter
          (fun v => !v.isStr)))
  ∧ (∃ s, validate_file_blacklist (.list [.str "foo"])
        = .error (.valueError [.str s]) ∧
        Value.str s ∈ [Value.str "foo"] ∧ s ∉ valid_values)
  ∧ validate_file_blacklist (.list [.str "key_attribute_lookup"])
      = .error (.valueError [.str "key_attribute_lookup"]) := by
  refine ⟨?_, ?_, ?_, ?_⟩
  · exact (C5_blacklist_valid_values.2.2.1 [.str "heartbeat"]).mpr
      (by
        intro v hv
        rw [List.mem_singleton] at hv
        exact ⟨"heartbeat", hv, by decide⟩)
  · exact C5_blacklist_valid_values.2.2.2.2.1 [.str "heartbeat", .nat 14]
      ⟨.nat 14, List.mem_cons_of_mem _ (List.mem_cons_self _ _), rfl⟩
  · exact C5_blacklist_valid_values.2.2.2.2.2.1 [.str "foo"]
      (by intro v hv; rw [List.mem_singleton] at hv; rw [hv]; rfl)
      ⟨"foo", List.mem_cons_self _ _, by decide⟩
  · exact C5_blacklist_valid_values.2.2.2.2.2.2 "key_attribute_lookup"
      (by decide)

/-! ## C4: holdout/train column comparison -/

/-- An `Environment` state entering `define_holdout_set` with materialized
train and holdout tables of the given column lists. -/
def envH (tc hc : List String) : Env :=
  initEnv { train_dataset := .frame tc, holdout_dataset := .frame hc }

/-- Claim C4 (counterexample): two tables whose columns are equal as sets —
`["a", "b"]` and `["b", "a"]` — but differently ordered make
`define_holdout_set` raise the schema `ValueError`, so derivation does not
succeed whenever the column sets match. -/
theorem C4_counterexample :
    (["a", "b"] : List String).Perm ["b", "a"]
  ∧ define_holdout_set (fun _ t _ => (t, .none)) (fun _ => Option.none)
        (envH ["a", "b"] ["b", "a"])
      = .error (.valueError [.nat 2, .list [.str "a", .str "b"],
                             .nat 2, .list [.str "b", .str "a"]]) :=
  ⟨by decide, rfl⟩

/-- Claim C4 (amended): with a materialized holdout table present,
`define_holdout_set` succeeds if and only if the holdout column sequence is
elementwise equal to the training column sequence — same names, same count,
same order (`np.array_equal`) — and otherwise raises a fatal `ValueError`
reporting both column counts and both column name lists. -/
theorem C4_holdout_schema (applyF : String → Value → Value → Value × Value)
    (csvFs : String → Option (List String)) (tc hc : List String) :
    define_holdout_set applyF csvFs (envH tc hc) =
      if tc = hc then .ok (envH tc hc)
      else .error (.valueError [.nat tc.length, .list (tc.map .str),
                                .nat hc.length, .list (hc.map .str)]) := rfl

/-! ## Lemmas about the defaults cascade -/

theorem applyUserDefaults_attrs_of_not_none (path : Value)
    (d : List (String × Value)) (e : Env) (k : String)
    (h : (e.attrs k).isNone = false) :
    ((applyUserDefaults path d e).1).attrs k = e.attrs k := by
  induction d generalizing e with
  | nil => rfl
  | cons kv rest ih =>
      obtain ⟨k', v'⟩ := kv
      rw [applyUserDefaults]
      by_cases hk' : k' ∈ allowedParameterKeys
      · rw [if_pos hk']
        by_cases hn : (e.attrs k').isNone = true
        · rw [if_pos hn]
          have hne : k ≠ k' := fun hkk => by rw [hkk, hn] at h; cases h
          rw [ih (e.setattr k' v') (by rw [Env.attrs_setattr, if_neg hne]; exact h),
            Env.attrs_setattr, if_neg hne]
        · rw [if_neg hn]
          exact ih e h
      · rw [if_neg hk']
        exact ih e h

theorem applyUserDefaults_attrs_none_values (path : Value)
    (d : List (String × Value)) (e : Env) (k : String)
    (h : e.attrs k = Value.none)
    (hd : ∀ v, (k, v) ∈ d → v = Value.none) :
    ((applyUserDefaults path d e).1).attrs k = Value.none := by
  induction d generalizing e with
  | nil => exact h
  | cons kv rest ih =>
      obtain ⟨k', v'⟩ := kv
      rw [applyUserDefaults]
      by_cases hk' : k' ∈ allowedParameterKeys
      · rw [if_pos hk']
        by_cases hn : (e.attrs k').isNone = true
        · rw [if_pos hn]
          refine ih (e.setattr k' v') ?_ (fun v hv => hd v (List.mem_cons_of_mem _ hv))
          rw [Env.attrs_setattr]
          by_cases hkk : k = k'
          · rw [if_pos hkk]
            exact hd v' (by rw [hkk]; exact List.mem_cons_self _ _)
          · rw [if_neg hkk]; exact h
        · rw [if_neg hn]
          exact ih e h (fun v hv => hd v (List.mem_cons_of_mem _ hv))
      · rw [if_neg hk']
        exact ih e h (fun v hv => hd v (List.mem_cons_of_mem _ hv))

theorem applyUserDefaults_attrs_not_allowed (path : Value)
    (d : List (String × Value)) (e : Env) (k : String)
    (hk : k ∉ allowedParameterKeys) :
    ((applyUserDefaults path d e).1).attrs k = e.attrs k := by
  induction d generalizing e with
  | nil => rfl
  | cons kv rest ih =>
      obtain ⟨k', v'⟩ := kv
      rw [applyUserDefaults]
      by_cases hk' : k' ∈ allowedParameterKeys
      · rw [if_pos hk']
        by_cases hn : (e.attrs k').isNone = true
        · rw [if_pos hn]
          have hne : k ≠ k' := fun hkk => hk (hkk ▸ hk')
          rw [ih (e.setattr k' v'), Env.attrs_setattr, if_neg hne]
        · rw [if_neg hn]; exact ih e
      · rw [if_neg hk']; exact ih e

theorem applyUserDefaults_warnings (path : Value)
    (d : List (String × Value)) (e : Env) :
    (applyUserDefaults path d e).2 =
      (d.filter (fun kv => kv.1 ∉ allowedParameterKeys)).map
        (fun kv => Warning.invalidDefaultKey kv.1 path allowedParameterKeys) := by
  induction d generalizing e with
  | nil => rfl
  | cons kv rest ih =>
      obtain ⟨k', v'⟩ := kv
      rw [applyUserDefaults]
      by_cases hk' : k' ∈ allowedParameterKeys
      · rw [if_pos hk']
        rw [List.filter_cons_of_neg (by simpa using hk')]
        by_cases hn : (e.attrs k').isNone = true
        · rw [if_pos hn]; exact ih (e.setattr k' v')
        · rw [if_neg hn]; exact ih e
      · rw [if_neg hk']
        rw [List.filter_cons_of_pos (by simpa using hk'), List.map_cons]
        simpa using ih e

theorem applyModuleDefaults_attrs_of_not_none (l : List String) (e : Env)
    (k : String) (h : (e.attrs k).isNone = false) :
    (applyModuleDefaults l e).attrs k = e.attrs k := by
  induction l generalizing e with
  | nil => rfl
  | cons k' rest ih =>
      rw [applyModuleDefaults]
      by_cases hn : (e.attrs k').isNone = true
      · rw [if_pos hn]
        have hne : k ≠ k' := fun hkk => by rw [hkk, hn] at h; cases h
        rw [ih _ (by rw [Env.attrs_setattr, if_neg hne]; exact h),
          Env.attrs_setattr, if_neg hne]
      · rw [if_neg hn]
        exact ih e h

theorem applyModuleDefaults_attrs_not_mem (l : List String) (e : Env)
    (k : String) (hk : k ∉ l) :
    (applyModuleDefaults l e).attrs k = e.attrs k := by
  induction l generalizing e with
  | nil => rfl
  | cons k' rest ih =>
      have hne : k ≠ k' := fun hkk => hk (hkk ▸ List.mem_cons_self _ _)
      have hkrest : k ∉ rest := fun hr => hk (List.mem_cons_of_mem _ hr)
      rw [applyModuleDefaults]
      by_cases hn : (e.attrs k').isNone = true
      · rw [if_pos hn, ih _ hkrest, Env.attrs_setattr, if_neg hne]
      · rw [if_neg hn]
        exact ih e hkrest

theorem applyModuleDefaults_attrs_mem (l : List String) (e : Env) (k : String)
    (hk : k ∈ l) (hnd : l.Nodup) (h : e.attrs k = Value.none) :
    (applyModuleDefaults l e).attrs k =
      (List.lookup k DEFAULT_PARAMS).getD Value.none := by
  induction l generalizing e with
  | nil => cases hk
  | cons k' rest ih =>
      rw [applyModuleDefaults]
      by_cases hkk : k = k'
      · subst hkk
        rw [if_pos (by rw [h]; rfl)]
        rw [applyModuleDefaults_attrs_not_mem rest _ k (List.nodup_cons.mp hnd).1,
          Env.attrs_setattr, if_pos rfl]
      · have hkrest : k ∈ rest := by
          rcases List.mem_cons.mp hk with heq | hmem
          · exact absurd heq hkk
          · exact hmem
        by_cases hn : (e.attrs k').isNone = true
        · rw [if_pos hn]
          exact ih _ hkrest (List.nodup_cons.mp hnd).2
            (by rw [Env.attrs_setattr, if_neg hkk]; exact h)
        · rw [if_neg hn]
          exact ih e hkrest (List.nodup_cons.mp hnd).2 h

/-- Inversion of a successful `update_custom_environment_params` run: the
defaults file decoded to a dict `d`, and the result is the two cascaded loops
applied in order. -/
theorem updateCustomEnvironmentParams_ok_inv (fs : String → Option Value)
    (e e' : Env) (ws : List Warning)
    (h : updateCustomEnvironmentParams fs e = .ok (e', ws)) :
    ∃ d, readUserDefaults fs (e.attrs "environment_params_path") = .ok (.dict d)
      ∧ e' = applyModuleDefaults allowedParameterKeys
          ((applyUserDefaults (e.attrs "environment_params_path") d e).1)
      ∧ ws = (applyUserDefaults (e.attrs "environment_params_path") d e).2 := by
  rw [updateCustomEnvironmentParams] at h
  by_cases hc : (!(e.attrs "environment_params_path").isStr &&
      !(e.attrs "environment_params_path").isNone) = true
  · rw [if_pos hc] at h
    cases h
  · rw [if_neg hc] at h
    cases hrd : readUserDefaults fs (e.attrs "environment_params_path") with
    | error err => rw [hrd] at h; cases h
    | ok ud =>
        rw [hrd] at h
        cases ud with
        | dict d =>
            refine ⟨d, rfl, ?_, ?_⟩
            · exact (congrArg Prod.fst (Except.ok.inj h)).symm
            · exact (congrArg Prod.snd (Except.ok.inj h)).symm
        | none => cases h
        | bool b => cases h
        | nat n => cases h
        | str s => cases h
        | list elems => cases h
        | func fname => cases h
        | cls cname => cases h
        | frame cols => cases h

/-- The keyword-only options that `__init__` normalizes with `or {}` / `or []`
before resolution ever runs. -/
def normalizedKeys : List String :=
  ["reporting_handler_params", "to_csv_params", "experiment_callbacks"]

theorem initEnv_attrs_of_mem (kw : Kwargs) (k : String)
    (hk : k ∈ allowedParameterKeys) :
    (initEnv kw).attrs k =
      if k = "reporting_handler_params" then pyOr (kwGet kw k) (.dict [])
      else if k = "to_csv_params" then pyOr (kwGet kw k) (.dict [])
      else if k = "experiment_callbacks" then pyOr (kwGet kw k) (.list [])
      else kwGet kw k := by
  fin_cases hk <;> rfl

/-! ## C1: caller-supplied values take precedence -/

/-- Claim C1 (counterexample): the caller-supplied non-null value `False` for
the keyword-only option `to_csv_params` does not survive resolution — the
constructor normalizes it with `or {}` to the empty dict before
`update_custom_environment_params` runs, so the resolved attribute is `{}`,
not the caller's value. -/
theorem C1_counterexample :
    kwGet { to_csv_params := .bool false } "to_csv_params" ≠ Value.none
  ∧ (okEnv (updateCustomEnvironmentParams (fun _ => Option.none)
        (initEnv { to_csv_params := .bool false }))).attrs "to_csv_params"
      = Value.dict []
  ∧ Value.dict [] ≠ Value.bool false :=
  ⟨fun h => Value.noConfusion h, rfl, fun h => Value.noConfusion h⟩

/-- Claim C1 (amended): for every keyword-only option, if the caller passes a
non-null value, the resolved attribute after
`update_custom_environment_params` equals that value regardless of the
defaults file and of `DEFAULT_PARAMS` — except that for the three options
`reporting_handler_params`, `to_csv_params` and `experiment_callbacks` this
additionally requires the caller value to be truthy, because `__init__`
replaces a falsy value for them with the empty dict/list before resolution. -/
theorem C1_caller_precedence (fs : String → Option Value) (kw : Kwargs)
    (k : String) (e' : Env) (ws : List Warning)
    (hk : k ∈ allowedParameterKeys)
    (hnn : kwGet kw k ≠ Value.none)
    (hnorm : truthy (kwGet kw k) = true ∨ k ∉ normalizedKeys)
    (hok : updateCustomEnvironmentParams fs (initEnv kw) = .ok (e', ws)) :
    e'.attrs k = kwGet kw k := by
  have hinit : (initEnv kw).attrs k = kwGet kw k := by
    rw [initEnv_attrs_of_mem kw k hk]
    rcases hnorm with htr | hmem
    · have hp : ∀ x, pyOr (kwGet kw k) x = kwGet kw k :=
        fun x => by rw [pyOr, if_pos htr]
      simp only [hp, ite_self]
    · rw [if_neg (fun h => hmem (by rw [h]; decide)),
        if_neg (fun h => hmem (by rw [h]; decide)),
        if_neg (fun h => hmem (by rw [h]; decide))]
  have hnone : ((initEnv kw).attrs k).isNone = false := by
    rw [hinit, Value.isNone_eq_false_iff]
    exact hnn
  obtain ⟨d, _, he', _⟩ := updateCustomEnvironmentParams_ok_inv fs _ e' ws hok
  rw [he', applyModuleDefaults_attrs_of_not_none, applyUserDefaults_attrs_of_not_none]
  · exact hinit
  · exact hnone
  · rw [applyUserDefaults_attrs_of_not_none _ _ _ _ hnone]
    exact hnone

/-- Witness for C1: the caller value `False` for `verbose` (a falsy but
non-null value of a non-normalized option) survives resolution against a
defaults file that tries to override it. -/
theorem C1_caller_precedence_witness :
    (okEnv (updateCustomEnvironmentParams
        (fun _ => some (.dict [("verbose", .bool true)]))
        (initEnv { environment_params_path := .str "defaults.json",
                   verbose := .bool false }))).attrs "verbose"
      = Value.bool false :=
  C1_caller_precedence (fun _ => some (.dict [("verbose", .bool true)]))
    { environment_params_path := .str "defaults.json", verbose := .bool false }
    "verbose" _ _ (by decide) (fun h => Value.noConfusion h)
    (Or.inr (by decide)) rfl

/-! ## C2: fallback to the module-level default table -/

/-- Claim C2 (counterexample): with no caller value and no defaults file,
`reporting_handler_params` resolves to the empty dict `{}` (the constructor's
`or {}` normalization), not to the populated `DEFAULT_PARAMS` entry; and
`experiment_callbacks`, absent from `DEFAULT_PARAMS`, resolves to the empty
list, not to null. -/
theorem C2_counterexample :
    kwGet {} "reporting_handler_params" = Value.none
  ∧ (okEnv (updateCustomEnvironmentParams (fun _ => Option.none)
        (initEnv {}))).attrs "reporting_handler_params" = Value.dict []
  ∧ (List.lookup "reporting_handler_params" DEFAULT_PARAMS).getD Value.none
      ≠ Value.dict []
  ∧ (okEnv (updateCustomEnvironmentParams (fun _ => Option.none)
        (initEnv {}))).attrs "experiment_callbacks" = Value.list []
  ∧ List.lookup "experiment_callbacks" DEFAULT_PARAMS = Option.none
  ∧ Value.list [] ≠ Value.none := by
  refine ⟨rfl, rfl, ?_, rfl, rfl, fun h => Value.noConfusion h⟩
  intro h
  injection h with h'
  exact List.noConfusion h'

/-- Claim C2 (amended): for every keyword-only option with a null caller value
and no valid defaults-file value for it, the resolved attribute equals the
`DEFAULT_PARAMS` entry, or stays null when the table has no entry — except
that `reporting_handler_params` and `to_csv_params` resolve to the empty dict
and `experiment_callbacks` to the empty list, because the constructor
normalizes them before resolution (for `to_csv_params` this coincides with the
table's empty-dict entry, for the other two it does not come from the table at
all). -/
theorem C2_module_defaults (fs : String → Option Value) (kw : Kwargs)
    (k : String) (d : List (String × Value))
    (hk : k ∈ allowedParameterKeys)
    (hnull : kwGet kw k = Value.none)
    (hrd : readUserDefaults fs kw.environment_params_path = .ok (.dict d))
    (hno : ∀ v, (k, v) ∈ d → v = Value.none) :
    ∃ e' ws, updateCustomEnvironmentParams fs (initEnv kw) = .ok (e', ws) ∧
      e'.attrs k =
        if k = "reporting_handler_params" ∨ k = "to_csv_params" then
          Value.dict []
        else if k = "experiment_callbacks" then Value.list []
        else (List.lookup k DEFAULT_PARAMS).getD Value.none := by
  have hpath : (initEnv kw).attrs "environment_params_path"
      = kw.environment_params_path := rfl
  have hcond : (!((initEnv kw).attrs "environment_params_path").isStr &&
      !((initEnv kw).attrs "environment_params_path").isNone) = false := by
    rw [hpath]
    cases hp : kw.environment_params_path <;>
      simp_all [readUserDefaults, read_json, Value.isStr, Value.isNone]
  refine ⟨applyModuleDefaults allowedParameterKeys
      ((applyUserDefaults kw.environment_params_path d (initEnv kw)).1),
    (applyUserDefaults kw.environment_params_path d (initEnv kw)).2, ?_, ?_⟩
  · rw [updateCustomEnvironmentParams,
      if_neg (by rw [hcond]; exact fun h => Bool.noConfusion h), hpath, hrd]
  · by_cases h1 : k = "reporting_handler_params"
    · rw [if_pos (Or.inl h1)]
      have : (initEnv kw).attrs k = Value.dict [] := by
        rw [initEnv_attrs_of_mem kw k hk, hnull, if_pos h1]; rfl
      rw [applyModuleDefaults_attrs_of_not_none, applyUserDefaults_attrs_of_not_none]
      · exact this
      · rw [this]; rfl
      · rw [applyUserDefaults_attrs_of_not_none _ _ _ _ (by rw [this]; rfl), this]; rfl
    · by_cases h2 : k = "to_csv_params"
      · rw [if_pos (Or.inr h2)]
        have : (initEnv kw).attrs k = Value.dict [] := by
          rw [initEnv_attrs_of_mem kw k hk, hnull, if_neg h1, if_pos h2]; rfl
        rw [applyModuleDefaults_attrs_of_not_none, applyUserDefaults_attrs_of_not_none]
        · exact this
        · rw [this]; rfl
        · rw [applyUserDefaults_attrs_of_not_none _ _ _ _ (by rw [this]; rfl), this]; rfl
      · rw [if_neg (by rintro (h | h) <;> [exact h1 h; exact h2 h])]
        by_cases h3 : k = "experiment_callbacks"
        · rw [if_pos h3]
          have : (initEnv kw).attrs k = Value.list [] := by
            rw [initEnv_attrs_of_mem kw k hk, hnull, if_neg h1, if_neg h2,
              if_pos h3]; rfl
          rw [applyModuleDefaults_attrs_of_not_none, applyUserDefaults_attrs_of_not_none]
          · exact this
          · rw [this]; rfl
          · rw [applyUserDefaults_attrs_of_not_none _ _ _ _ (by rw [this]; rfl), this]; rfl
        · rw [if_neg h3]
          have hinit : (initEnv kw).attrs k = Value.none := by
            rw [initEnv_attrs_of_mem kw k hk, hnull, if_neg h1, if_neg h2, if_neg h3]
          have huser : ((applyUserDefaults kw.environment_params_path d
              (initEnv kw)).1).attrs k = Value.none :=
            applyUserDefaults_attrs_none_values _ d _ k hinit hno
          exact applyModuleDefaults_attrs_mem allowedParameterKeys _ k hk
            (by decide) huser

/-- Witness for C2: with no caller value for `runs` and an empty defaults
file system, the resolved `runs` is the `DEFAULT_PARAMS` entry `1`. -/
theorem C2_module_defaults_witness :
    (okEnv (updateCustomEnvironmentParams (fun _ => Option.none)
        (initEnv {}))).attrs "runs" = Value.nat 1 := by
  obtain ⟨e', ws, hok, ha⟩ := C2_module_defaults (fun _ => Option.none) {}
    "runs" [] (by decide) rfl rfl (fun v hv => absurd hv (by simp))
  rw [hok]
  show e'.attrs "runs" = Value.nat 1
  rw [ha,
    if_neg (by decide :
      ¬("runs" = "reporting_handler_params" ∨ "runs" = "to_csv_params")),
    if_neg (by decide : ¬"runs" = "experiment_callbacks")]
  rfl

/-! ## C8: error taxonomy of the defaults-file loading -/

/-- `isinstance(x, dict)`. -/
def Value.isDict : Value → Bool
  | .dict _ => true
  | _ => false

/-- Claim C8: in `update_custom_environment_params`, a non-null non-string
`environment_params_path` raises a fatal `TypeError`; a string path with no
file behind it raises a propagated not-found error, while a null path is not
an error; decoded content that is not a mapping raises a fatal `TypeError`;
and a defaults-file key outside the keyword-only option set produces only a
non-fatal warning listing the valid keys, after which resolution continues
and the key is ignored (no attribute outside the option set is touched). -/
theorem C8_defaults_file_handling (fs : String → Option Value) (e : Env) :
    (∀ v, e.attrs "environment_params_path" = v → v.isStr = false →
        v.isNone = false →
        updateCustomEnvironmentParams fs e = .error (.typeError [v]))
  ∧ (∀ p, e.attrs "environment_params_path" = .str p → fs p = Option.none →
        updateCustomEnvironmentParams fs e = .error (.fileNotFound p))
  ∧ (e.attrs "environment_params_path" = Value.none →
        updateCustomEnvironmentParams fs e
          = .ok (applyModuleDefaults allowedParameterKeys e, []))
  ∧ (∀ p v, e.attrs "environment_params_path" = .str p → fs p = some v →
        v.isDict = false →
        updateCustomEnvironmentParams fs e = .error (.typeError [v]))
  ∧ (∀ p d, e.attrs "environment_params_path" = .str p →
        fs p = some (.dict d) →
        ∃ e', updateCustomEnvironmentParams fs e
            = .ok (e', (d.filter (fun kv => kv.1 ∉ allowedParameterKeys)).map
                (fun kv => Warning.invalidDefaultKey kv.1 (.str p)
                  allowedParameterKeys)) ∧
          ∀ k, k ∉ allowedParameterKeys → e'.attrs k = e.attrs k) := by
  refine ⟨?_, ?_, ?_, ?_, ?_⟩
  · intro v hv h1 h2
    cases v <;> simp_all [updateCustomEnvironmentParams, Value.isStr,
      Value.isNone]
  · intro p hv hfs
    simp [updateCustomEnvironmentParams, hv, readUserDefaults, read_json, hfs,
      Value.isStr]
  · intro hv
    simp [updateCustomEnvironmentParams, hv, readUserDefaults, read_json,
      Value.isStr, Value.isNone, applyUserDefaults]
  · intro p v hv hfs hnd
    cases v <;> simp_all [updateCustomEnvironmentParams, hv, readUserDefaults,
      read_json, Value.isStr, Value.isDict]
  · intro p d hv hfs
    refine ⟨applyModuleDefaults allowedParameterKeys
        ((applyUserDefaults (.str p) d e).1), ?_, ?_⟩
    · simp only [updateCustomEnvironmentParams, hv, readUserDefaults,
        read_json, hfs, Value.isStr, Bool.not_true, Bool.false_and,
        Bool.false_eq_true, if_false]
      rw [applyUserDefaults_warnings]
    · intro k hk
      rw [applyModuleDefaults_attrs_not_mem _ _ _ hk,
        applyUserDefaults_attrs_not_allowed _ _ _ _ hk]

/-- Witness for C8: the four error shapes and the unknown-key warning at
concrete inputs — path `5` (`TypeError`), a missing `m.json`
(`FileNotFoundError`), a null path (no error), a file decoding to a list
(`TypeError`), and a file with the unknown key `bogus` (warning only, key
ignored). -/
theorem C8_defaults_file_handling_witness :
    updateCustomEnvironmentParams (fun _ => Option.none)
        (initEnv { environment_params_path := .nat 5 })
      = .error (.typeError [.nat 5])
  ∧ updateCustomEnvironmentParams (fun _ => Option.none)
        (initEnv { environment_params_path := .str "m.json" })
      = .error (.fileNotFound "m.json")
  ∧ updateCustomEnvironmentParams (fun _ => Option.none) (initEnv {})
      = .ok (applyModuleDefaults allowedParameterKeys (initEnv {}), [])
  ∧ updateCustomEnvironmentParams (fun _ => some (.list []))
        (initEnv { environment_params_path := .str "d.json" })
      = .error (.typeError [.list []])
  ∧ okWarnings (updateCustomEnvironmentParams
        (fun _ => some (.dict [("bogus", .nat 1)]))
        (initEnv { environment_params_path := .str "d.json" }))
      = [.invalidDefaultKey "bogus" (.str "d.json") allowedParameterKeys]
  ∧ (okEnv (updateCustomEnvironmentParams
        (fun _ => some (.dict [("bogus", .nat 1)]))
        (initEnv { environment_params_path := .str "d.json" }))).attrs "bogus"
      = (initEnv { environment_params_path := .str "d.json" }).attrs "bogus" := by
  refine ⟨?_, ?_, ?_, ?_, ?_, ?_⟩
  · exact (C8_defaults_file_handling (fun _ => Option.none)
      (initEnv { environment_params_path := .nat 5 })).1 (.nat 5) rfl rfl rfl
  · exact (C8_defaults_file_handling (fun _ => Option.none)
      (initEnv { environment_params_path := .str "m.json" })).2.1 "m.json" rfl rfl
  · exact (C8_defaults_file_handling (fun _ => Option.none)
      (initEnv {})).2.2.1 rfl
  · exact (C8_defaults_file_handling (fun _ => some (.list []))
      (initEnv { environment_params_path := .str "d.json" })).2.2.2.1
      "d.json" (.list []) rfl rfl rfl
  · obtain ⟨e', hok, _⟩ := (C8_defaults_file_handling
      (fun _ => some (.dict [("bogus", .nat 1)]))
      (initEnv { environment_params_path := .str "d.json" })).2.2.2.2
      "d.json" [("bogus", .nat 1)] rfl rfl
    rw [hok]
    rfl
  · obtain ⟨e', hok, hpres⟩ := (C8_defaults_file_handling
      (fun _ => some (.dict [("bogus", .nat 1)]))
      (initEnv { environment_params_path := .str "d.json" })).2.2.2.2
      "d.json" [("bogus", .nat 1)] rfl rfl
    rw [hok]
    exact hpres "bogus" (by decide)

/-! ## Lemmas about dict assignment and merging -/

theorem lookup_cons_same (k : String) (v : Value) (l : List (String × Value)) :
    List.lookup k ((k, v) :: l) = some v := by
  simp [List.lookup]

theorem lookup_cons_diff (k k' : String) (v : Value) (l : List (String × Value))
    (h : k ≠ k') : List.lookup k ((k', v) :: l) = List.lookup k l := by
  rw [List.lookup, beq_eq_false_iff_ne.mpr h]

theorem lookup_dictSet_self (d : List (String × Value)) (k : String) (v : Value) :
    List.lookup k (dictSet d k v) = some v := by
  induction d with
  | nil => simp [dictSet, List.lookup]
  | cons kv rest ih =>
      obtain ⟨k', v'⟩ := kv
      rw [dictSet]
      by_cases h : k' = k
      · rw [if_pos h, lookup_cons_same]
      · rw [if_neg h, lookup_cons_diff _ _ _ _ (Ne.symm h)]
        exact ih

theorem lookup_dictSet_ne (d : List (String × Value)) (k k' : String) (v : Value)
    (h : k ≠ k') : List.lookup k (dictSet d k' v) = List.lookup k d := by
  induction d with
  | nil => rw [dictSet, lookup_cons_diff _ _ _ _ h]
  | cons kv rest ih =>
      obtain ⟨k'', v''⟩ := kv
      rw [dictSet]
      by_cases h2 : k'' = k'
      · rw [if_pos h2, lookup_cons_diff _ _ _ _ h,
          lookup_cons_diff _ _ _ _ (h2 ▸ h)]
      · rw [if_neg h2]
        by_cases h3 : k = k''
        · subst h3
          rw [lookup_cons_same, lookup_cons_same]
        · rw [lookup_cons_diff _ _ _ _ h3, lookup_cons_diff _ _ _ _ h3]
          exact ih

theorem forall_ne_of_lookup_eq_none (l : List (String × Value)) (k : String)
    (h : List.lookup k l = Option.none) : ∀ p ∈ l, p.1 ≠ k := by
  induction l with
  | nil => intro p hp; cases hp
  | cons kv rest ih =>
      obtain ⟨k', v'⟩ := kv
      by_cases hk : k = k'
      · rw [hk, lookup_cons_same] at h
        cases h
      · rw [lookup_cons_diff _ _ _ _ hk] at h
        intro p hp
        rcases List.mem_cons.mp hp with heq | hmem
        · rw [heq]
          exact fun hc => hk hc.symm
        · exact ih h p hmem

theorem lookup_foldl_dictSet_of_not_mem (l : List (String × Value))
    (acc : List (String × Value)) (k : String)
    (h : ∀ p ∈ l, p.1 ≠ k) :
    List.lookup k (l.foldl (fun acc kv => dictSet acc kv.1 kv.2) acc)
      = List.lookup k acc := by
  induction l generalizing acc with
  | nil => rfl
  | cons kv rest ih =>
      rw [List.foldl_cons,
        ih _ (fun p hp => h p (List.mem_cons_of_mem _ hp)),
        lookup_dictSet_ne _ _ _ _
          (fun hc => h kv (List.mem_cons_self _ _) hc.symm)]

theorem lookup_foldl_dictSet_of_lookup (l : List (String × Value))
    (acc : List (String × Value)) (k : String) (u : Value)
    (hnd : (l.map Prod.fst).Nodup) (hl : List.lookup k l = some u) :
    List.lookup k (l.foldl (fun acc kv => dictSet acc kv.1 kv.2) acc)
      = some u := by
  induction l generalizing acc with
  | nil => cases hl
  | cons kv rest ih =>
      obtain ⟨k', v'⟩ := kv
      rw [List.foldl_cons]
      by_cases hk : k = k'
      · subst hk
        rw [lookup_cons_same] at hl
        cases hl
        rw [lookup_foldl_dictSet_of_not_mem rest _ k
          (fun p hp hc => ((List.nodup_cons.mp (by simpa using hnd)).1)
            (hc ▸ List.mem_map_of_mem Prod.fst hp)),
          lookup_dictSet_self]
      · rw [lookup_cons_diff _ _ _ _ hk] at hl
        exact ih _ (by simpa using (List.nodup_cons.mp (by simpa using hnd)).2) hl

theorem lookup_mergeDict_single_absent (k : String) (v : Value)
    (mp : List (String × Value)) (h : List.lookup k mp = Option.none) :
    List.lookup k (mergeDict [(k, v)] mp) = some v := by
  rw [mergeDict, List.singleton_append, List.foldl_cons,
    lookup_foldl_dictSet_of_not_mem mp _ k (forall_ne_of_lookup_eq_none mp k h)]
  show List.lookup k (dictSet [] k v) = some v
  exact lookup_dictSet_self [] k v

theorem lookup_mergeDict_single_present (k : String) (v : Value)
    (mp : List (String × Value)) (hnd : (mp.map Prod.fst).Nodup) (u : Value)
    (h : List.lookup k mp = some u) :
    List.lookup k (mergeDict [(k, v)] mp) = some u := by
  rw [mergeDict, List.singleton_append, List.foldl_cons]
  exact lookup_foldl_dictSet_of_lookup mp _ k u hnd h

/-! ## C3: metrics_map / metrics_params exclusivity -/

/-- An `Environment` state entering `validate_parameters` with the given
metric registry (`metrics_map`) and metric parameters (`metrics_params`),
and otherwise benign resolved values (no root path, boolean verbosity, a
materialized training table, no blacklist). -/
def envC3 (mm : Value) (mp : List (String × Value)) : Env :=
  initEnv { train_dataset := .frame ["a", "target"], verbose := .bool true,
            metrics_map := mm, metrics_params := .dict mp }

/-- The state of `envC3` when `validate_parameters` reaches its metrics
section (blacklist already normalized to the empty list). -/
def preMetricsC3 (mm : Value) (mp : List (String × Value)) : Env :=
  (envC3 mm mp).setattr "file_blacklist" (.list [])

/-- The remaining sections of `validate_parameters` after the metrics
section. -/
def postMetricsC3 (e4 : Env) : Except Err (Env × List Warning) :=
  match validateToCsvParams e4 with
  | .error err => .error err
  | .ok e5 =>
      match validateExperimentCallbacks (snapshotCrossExperimentParams e5) with
      | .error err => .error err
      | .ok e6 => .ok (e6, [Warning.rootResultsPathNone] ++ [])

/-- `validate_parameters` on `envC3` runs every earlier section successfully
and is decided by the metrics section. -/
theorem validate_parameters_envC3 (mm : Value) (mp : List (String × Value)) :
    validate_parameters (fun _ => Option.none) (envC3 mm mp) =
      match validateMetrics (preMetricsC3 mm mp) with
      | .error err => .error err
      | .ok e4 => postMetricsC3 e4 := rfl

/-- Claim C3: in `validate_parameters`, a non-null direct `metrics_map`
together with a `metrics_map` key inside `metrics_params` raises a fatal
`ValueError` naming both conflicting values; a registry in neither location
fails fatally (a `KeyError` on the required key); a registry in exactly one
location succeeds, and the final `metrics_params` mapping contains the
registry under the reserved `metrics_map` key. -/
theorem C3_metrics_map_exclusivity (mm : Value) (mp : List (String × Value)) :
    (mm.isNone = false → (List.lookup "metrics_map" mp).isSome = true →
        validate_parameters (fun _ => Option.none) (envC3 mm mp)
          = .error (.valueError [mm, .dict mp]))
  ∧ (mm = Value.none → List.lookup "metrics_map" mp = Option.none →
        validate_parameters (fun _ => Option.none) (envC3 mm mp)
          = .error (.keyError "metrics_map"))
  ∧ (mm.isNone = false → List.lookup "metrics_map" mp = Option.none →
        ∃ e' ws mp',
          validate_parameters (fun _ => Option.none) (envC3 mm mp)
              = .ok (e', ws)
            ∧ e'.attrs "metrics_params" = .dict mp'
            ∧ List.lookup "metrics_map" mp' = some mm)
  ∧ ((mp.map Prod.fst).Nodup → ∀ reg, mm = Value.none →
        List.lookup "metrics_map" mp = some reg →
        ∃ e' ws mp',
          validate_parameters (fun _ => Option.none) (envC3 mm mp)
              = .ok (e', ws)
            ∧ e'.attrs "metrics_params" = .dict mp'
            ∧ List.lookup "metrics_map" mp' = some reg) := by
  have hpre : validateMetrics (preMetricsC3 mm mp) =
      (if (!mm.isNone && (List.lookup "metrics_map" mp).isSome) = true then
        Except.error (Err.valueError [mm, .dict mp])
      else
        match
          (if mm.isNone then
             match List.lookup "metrics_map" mp with
             | some v => Except.ok v
             | Option.none => Except.error (Err.keyError "metrics_map")
           else Except.ok mm) with
        | .error err => .error err
        | .ok mm' =>
            .ok (((preMetricsC3 mm mp).setattr "metrics_map" mm').setattr
                  "metrics_params"
                  (.dict (mergeDict [("metrics_map", mm')] mp)))) := rfl
  refine ⟨?_, ?_, ?_, ?_⟩
  · intro h1 h2
    rw [validate_parameters_envC3, hpre,
      if_pos (by rw [h1, h2]; rfl)]
  · intro h1 h2
    subst h1
    rw [validate_parameters_envC3, hpre,
      if_neg (by rw [h2]; exact fun hc => Bool.noConfusion hc), h2]
    rfl
  · intro h1 h2
    have hok : validate_parameters (fun _ => Option.none) (envC3 mm mp) =
        postMetricsC3 (((preMetricsC3 mm mp).setattr "metrics_map" mm).setattr
          "metrics_params" (.dict (mergeDict [("metrics_map", mm)] mp))) := by
      rw [validate_parameters_envC3, hpre,
        if_neg (by rw [h1, h2]; exact fun hc => Bool.noConfusion hc),
        if_neg (by rw [h1]; exact fun hc => Bool.noConfusion hc)]
    exact ⟨_, _, mergeDict [("metrics_map", mm)] mp, hok.trans rfl, rfl,
      lookup_mergeDict_single_absent _ mm mp h2⟩
  · intro hnd reg h1 h2
    subst h1
    have hok : validate_parameters (fun _ => Option.none) (envC3 .none mp) =
        postMetricsC3 (((preMetricsC3 .none mp).setattr "metrics_map" reg).setattr
          "metrics_params" (.dict (mergeDict [("metrics_map", reg)] mp))) := by
      rw [validate_parameters_envC3, hpre,
        if_neg (by rw [h2]; exact fun hc => Bool.noConfusion hc),
        if_pos (show Value.none.isNone = true from rfl), h2]
    exact ⟨_, _, mergeDict [("metrics_map", reg)] mp, hok.trans rfl, rfl,
      lookup_mergeDict_single_present _ reg mp hnd reg h2⟩

/-- Witness for C3 at concrete inputs: a registry in both locations raises the
mutual-exclusion `ValueError`; in neither location, the `KeyError`; a direct
registry ends up under the reserved key of the final mapping; a nested
registry likewise. -/
theorem C3_metrics_map_exclusivity_witness :
    validate_parameters (fun _ => Option.none)
        (envC3 (.func "f") [("metrics_map", .func "g")])
      = .error (.valueError [.func "f", .dict [("metrics_map", .func "g")]])
  ∧ validate_parameters (fun _ => Option.none) (envC3 Value.none [])
      = .error (.keyError "metrics_map")
  ∧ (match (okEnv (validate_parameters (fun _ => Option.none)
        (envC3 (.func "f") []))).attrs "metrics_params" with
     | .dict mp' => List.lookup "metrics_map" mp'
     | _ => Option.none) = some (.func "f")
  ∧ (match (okEnv (validate_parameters (fun _ => Option.none)
        (envC3 Value.none [("metrics_map", .func "g")]))).attrs
          "metrics_params" with
     | .dict mp' => List.lookup "metrics_map" mp'
     | _ => Option.none) = some (.func "g") := by
  refine ⟨?_, ?_, ?_, ?_⟩
  · exact (C3_metrics_map_exclusivity (.func "f")
      [("metrics_map", .func "g")]).1 rfl rfl
  · exact (C3_metrics_map_exclusivity Value.none []).2.1 rfl rfl
  · obtain ⟨e', ws, mp', hok, hmp, hl⟩ :=
      (C3_metrics_map_exclusivity (.func "f") []).2.2.1 rfl rfl
    rw [hok]
    show (match e'.attrs "metrics_params" with
          | .dict mp' => List.lookup "metrics_map" mp'
          | _ => Option.none) = some (.func "f")
    rw [hmp]
    exact hl
  · obtain ⟨e', ws, mp', hok, hmp, hl⟩ :=
      (C3_metrics_map_exclusivity Value.none
        [("metrics_map", .func "g")]).2.2.2 (by simp) (.func "g") rfl rfl
    rw [hok]
    show (match e'.attrs "metrics_params" with
          | .dict mp' => List.lookup "metrics_map" mp'
          | _ => Option.none) = some (.func "g")
    rw [hmp]
    exact hl

/-! ## Lemmas about result-path planning -/

/-- The blacklist as extended by `format_result_paths`: the original list with
`predictions_holdout` appended when no holdout table exists and
`predictions_test` appended when no test table exists (appended even when
already present — `list.append` never deduplicates). -/
def extendedBlacklist (l : List Value) (hold test : Value) : List Value :=
  (l ++ (if hold.isNone then [Value.str "predictions_holdout"] else [])) ++
    (if test.isNone then [Value.str "predictions_test"] else [])

/-- Membership of a category in the planner's (possibly extended) blacklist. -/
def blacklistHas (e : Env) (s : String) : Bool :=
  match e.attrs "file_blacklist" with
  | .list bl => listContainsStr bl s
  | _ => false

/-- The planned path of a catalogue category. -/
def resultPathOf (e : Env) (k : String) : Option Value :=
  match e.attrs "result_paths" with
  | .dict rp => List.lookup k rp
  | _ => Option.none

theorem listContainsStr_append (a b : List Value) (s : String) :
    listContainsStr (a ++ b) s = (listContainsStr a s || listContainsStr b s) := by
  simp [listContainsStr, List.any_append]

theorem listContainsStr_nil (s : String) : listContainsStr [] s = false := rfl

theorem listContainsStr_singleton_str (t s : String) :
    listContainsStr [.str t] s = (s == t) := by
  by_cases h : t = s
  · subst h
    simp [listContainsStr, Value.isStrEq]
  · simp [listContainsStr, Value.isStrEq, h, Ne.symm h]

theorem listContainsStr_extendedBlacklist (l : List Value) (hold test : Value)
    (s : String) :
    listContainsStr (extendedBlacklist l hold test) s =
      (listContainsStr l s || (s == "predictions_holdout" && hold.isNone)
        || (s == "predictions_test" && test.isNone)) := by
  rw [extendedBlacklist, listContainsStr_append, listContainsStr_append]
  cases hH : hold.isNone <;> cases hT : test.isNone <;>
    simp [hH, hT, listContainsStr_singleton_str, listContainsStr_nil]

theorem lookup_map_resultPathsInit (g : String → Value → Value) (rv : Value)
    (k : String) (hk : k ∈ resultPathKeys) :
    List.lookup k ((resultPathsInit rv).map (fun kv => (kv.1, g kv.1 kv.2)))
      = some (g k (if k = "root" then rv else Value.none)) := by
  fin_cases hk <;> rfl

/-- The environment produced by the planning branch of
`format_result_paths`: blacklist extended, every non-root catalogue entry
either null (blacklisted) or joined under the root. -/
def plannedEnv (subPaths : String → String) (e : Env) (r : String)
    (l : List Value) (rp : List (String × Value)) : Env :=
  (e.setattr "file_blacklist" (.list (extendedBlacklist l
      (e.attrs "holdout_dataset") (e.attrs "test_dataset")))).setattr
    "result_paths" (.dict (rp.map (fun kv =>
      (kv.1, if kv.1 = "root" then kv.2
             else if listContainsStr (extendedBlacklist l
                 (e.attrs "holdout_dataset") (e.attrs "test_dataset")) kv.1
               then Value.none
             else Value.str (joinPath r (subPaths kv.1))))))

/-- Reduction of `format_result_paths` in the planning case: a string root, a
list blacklist, and whatever dict `result_paths` currently holds. -/
theorem format_result_paths_core (subPaths : String → String) (e : Env)
    (r : String) (l : List Value) (rp : List (String × Value))
    (h1 : e.attrs "root_results_path" = .str r)
    (h2 : e.attrs "file_blacklist" = .list l)
    (h3 : e.attrs "result_paths" = .dict rp) :
    format_result_paths subPaths e = .ok (plannedEnv subPaths e r l rp) := by
  rw [plannedEnv]
  rw [format_result_paths]
  rw [if_neg (by rw [h2]; exact fun hc => Bool.noConfusion hc),
    if_neg (by rw [h1]; exact fun hc => Bool.noConfusion hc), h2, h1, h3]
  rfl

theorem blacklistHas_plannedEnv (subPaths : String → String) (e : Env)
    (r : String) (l : List Value) (rp : List (String × Value)) (s : String) :
    blacklistHas (plannedEnv subPaths e r l rp) s =
      (listContainsStr l s
        || (s == "predictions_holdout" && (e.attrs "holdout_dataset").isNone)
        || (s == "predictions_test" && (e.attrs "test_dataset").isNone)) := by
  rw [show blacklistHas (plannedEnv subPaths e r l rp) s
      = listContainsStr (extendedBlacklist l (e.attrs "holdout_dataset")
          (e.attrs "test_dataset")) s from rfl,
    listContainsStr_extendedBlacklist]

theorem attrs_plannedEnv_blacklist (subPaths : String → String) (e : Env)
    (r : String) (l : List Value) (rp : List (String × Value)) :
    (plannedEnv subPaths e r l rp).attrs "file_blacklist"
      = .list (extendedBlacklist l (e.attrs "holdout_dataset")
          (e.attrs "test_dataset")) := rfl

theorem resultPathOf_plannedEnv (subPaths : String → String) (e : Env)
    (r : String) (l : List Value) (rv : Value) (k : String)
    (hk : k ∈ resultPathKeys) (hkr : k ≠ "root") :
    resultPathOf (plannedEnv subPaths e r l (resultPathsInit rv)) k =
      some (if (listContainsStr l k
             || (k == "predictions_holdout" && (e.attrs "holdout_dataset").isNone)
             || (k == "predictions_test" && (e.attrs "test_dataset").isNone))
              = true
            then Value.none
            else Value.str (joinPath r (subPaths k))) := by
  rw [show resultPathOf (plannedEnv subPaths e r l (resultPathsInit rv)) k
      = List.lookup k ((resultPathsInit rv).map (fun kv =>
          (kv.1, if kv.1 = "root" then kv.2
                 else if listContainsStr (extendedBlacklist l
                     (e.attrs "holdout_dataset") (e.attrs "test_dataset")) kv.1
                   then Value.none
                 else Value.str (joinPath r (subPaths kv.1)))))
      from rfl,
    lookup_map_resultPathsInit
      (fun k0 v0 => if k0 = "root" then v0
        else if listContainsStr (extendedBlacklist l
            (e.attrs "holdout_dataset") (e.attrs "test_dataset")) k0
          then Value.none
        else Value.str (joinPath r (subPaths k0))) rv k hk,
    if_neg hkr, listContainsStr_extendedBlacklist]

/-! ## C6: implicit blacklist extension for missing datasets -/

/-- An `Environment` state entering `format_result_paths` with a configured
string root, a validated list blacklist, and the given holdout/test values. -/
def envP (l : List Value) (hold test : Value) : Env :=
  initEnv { root_results_path := .str "root", train_dataset := .frame ["t"],
            holdout_dataset := hold, test_dataset := test,
            file_blacklist := .list l }

/-- Project the environment out of a planning step (dummy store on error). -/
def okEnvE (r : Except Err Env) : Env :=
  match r with
  | .ok e => e
  | .error _ => ⟨fun _ => Value.none⟩

/-- Claim C6 (counterexample): with `predictions_test` already explicitly
blacklisted and no test dataset, `format_result_paths` appends a duplicate
entry — the blacklist list is changed, so the implicit addition is not a
no-op on the blacklist object (only on its membership). -/
theorem C6_counterexample :
    (okEnvE (format_result_paths (fun k => k)
        (envP [.str "predictions_test"] (.frame ["t"]) Value.none))).attrs
        "file_blacklist"
      = .list [.str "predictions_test", .str "predictions_test"]
  ∧ Value.list [.str "predictions_test", .str "predictions_test"]
      ≠ .list [.str "predictions_test"] := by
  refine ⟨rfl, fun h => ?_⟩
  injection h with h'
  injection h' with h1 h2
  exact List.noConfusion h2

/-- Claim C6 (amended): during path planning with a configured root and a list
blacklist, the holdout-prediction category is implicitly appended when no
holdout exists and the test-prediction category when no test set exists; the
append is idempotent on blacklist membership (an already-present category
yields a duplicate list entry but no new member), and the planned path of the
implicitly excluded category is null whether or not it was already explicitly
blacklisted. -/
theorem C6_implicit_exclusions (subPaths : String → String) (l : List Value)
    (hold test : Value) :
    ∃ e', format_result_paths subPaths (envP l hold test) = .ok e'
      ∧ e'.attrs "file_blacklist" = .list (extendedBlacklist l hold test)
      ∧ (∀ s : String, blacklistHas e' s =
          (listContainsStr l s || (s == "predictions_holdout" && hold.isNone)
            || (s == "predictions_test" && test.isNone)))
      ∧ (test.isNone = true →
          resultPathOf e' "predictions_test" = some Value.none)
      ∧ (hold.isNone = true →
          resultPathOf e' "predictions_holdout" = some Value.none) := by
  refine ⟨plannedEnv subPaths (envP l hold test) "root" l
      (resultPathsInit (.str "root")),
    format_result_paths_core subPaths (envP l hold test) "root" l
      (resultPathsInit (.str "root")) rfl rfl rfl,
    (attrs_plannedEnv_blacklist _ _ _ _ _), ?_, ?_, ?_⟩
  · intro s
    exact blacklistHas_plannedEnv subPaths (envP l hold test) "root" l _ s
  · intro hT
    rw [resultPathOf_plannedEnv subPaths (envP l hold test) "root" l
      (.str "root") "predictions_test" (by decide) (by decide)]
    simp [show (envP l hold test).attrs "test_dataset" = test from rfl, hT]
  · intro hH
    rw [resultPathOf_plannedEnv subPaths (envP l hold test) "root" l
      (.str "root") "predictions_holdout" (by decide) (by decide)]
    simp [show (envP l hold test).attrs "holdout_dataset" = hold from rfl, hH]

/-- Witness for C6: with blacklist `["predictions_test"]`, a holdout table
present and no test set, membership of `predictions_test` is unchanged and its
planned path is null. -/
theorem C6_implicit_exclusions_witness :
    (∃ e', format_result_paths (fun k => k)
        (envP [.str "predictions_test"] (.frame ["t"]) Value.none) = .ok e') ∧
    blacklistHas (okEnvE (format_result_paths (fun k => k)
        (envP [.str "predictions_test"] (.frame ["t"]) Value.none)))
        "predictions_test" = true ∧
    resultPathOf (okEnvE (format_result_paths (fun k => k)
        (envP [.str "predictions_test"] (.frame ["t"]) Value.none)))
        "predictions_test" = some Value.none := by
  obtain ⟨e', hok, hbl, hmem, hpt, hph⟩ := C6_implicit_exclusions (fun k => k)
    [.str "predictions_test"] (.frame ["t"]) Value.none
  rw [hok]
  exact ⟨⟨e', rfl⟩, (hmem "predictions_test").trans (by rfl), hpt rfl⟩

/-! ## C7: the full path-planning contract -/

/-- Claim C7: `format_result_paths` leaves every non-root catalogue entry
absent when the blacklist is the `"ALL"` sentinel (immediate return, no
blacklist extension, environment unchanged) and when no root path is
configured (environment unchanged); otherwise, for every catalogue key except
`root`, the planned path is null exactly when the key is in the possibly
extended blacklist, and is the root joined with the fixed per-category
sub-path otherwise. -/
theorem C7_path_planning (subPaths : String → String) :
    (∀ e : Env, (e.attrs "file_blacklist").isStrEq "ALL" = true →
        format_result_paths subPaths e = .ok e)
  ∧ (∀ e : Env, e.attrs "root_results_path" = Value.none →
        format_result_paths subPaths e = .ok e)
  ∧ (∀ (e : Env) (r : String) (l : List Value) (rv : Value),
        e.attrs "root_results_path" = .str r →
        e.attrs "file_blacklist" = .list l →
        e.attrs "result_paths" = .dict (resultPathsInit rv) →
        ∃ e', format_result_paths subPaths e = .ok e' ∧
          ∀ k ∈ resultPathKeys, k ≠ "root" →
            resultPathOf e' k = some
              (if (listContainsStr l k
                   || (k == "predictions_holdout" &&
                        (e.attrs "holdout_dataset").isNone)
                   || (k == "predictions_test" &&
                        (e.attrs "test_dataset").isNone)) = true
               then Value.none
               else Value.str (joinPath r (subPaths k)))) := by
  refine ⟨?_, ?_, ?_⟩
  · intro e h
    rw [format_result_paths, if_pos h]
  · intro e h
    rw [format_result_paths]
    by_cases hall : (e.attrs "file_blacklist").isStrEq "ALL" = true
    · rw [if_pos hall]
    · rw [if_neg hall, if_pos (by rw [h]; rfl)]
  · intro e r l rv h1 h2 h3
    refine ⟨plannedEnv subPaths e r l (resultPathsInit rv),
      format_result_paths_core subPaths e r l (resultPathsInit rv) h1 h2 h3, ?_⟩
    intro k hk hkr
    exact resultPathOf_plannedEnv subPaths e r l rv k hk hkr

/-- Witness for C7 at concrete inputs: an `"ALL"` blacklist and a null root
leave the environment unchanged, and with a configured root, an empty
blacklist and no test set, `description` is planned under the root while
`predictions_test` is null. -/
theorem C7_path_planning_witness :
    format_result_paths (fun k => k)
        (initEnv { file_blacklist := .str "ALL" })
      = .ok (initEnv { file_blacklist := .str "ALL" })
  ∧ format_result_paths (fun k => k) (initEnv {})
      = .ok (initEnv {})
  ∧ resultPathOf (okEnvE (format_result_paths (fun k => k)
        (envP [] (.frame ["t"]) Value.none))) "description"
      = some (.str "root/description")
  ∧ resultPathOf (okEnvE (format_result_paths (fun k => k)
        (envP [] (.frame ["t"]) Value.none))) "predictions_test"
      = some Value.none := by
  obtain ⟨e', hok, hpaths⟩ := (C7_path_planning (fun k => k)).2.2
    (envP [] (.frame ["t"]) Value.none) "root" [] (.str "root") rfl rfl rfl
  refine ⟨(C7_path_planning (fun k => k)).1 _ rfl,
    (C7_path_planning (fun k => k)).2.1 _ rfl, ?_, ?_⟩
  · rw [hok]
    exact (hpaths "description" (by decide) (by decide)).trans (by rfl)
  · rw [hok]
    exact (hpaths "predictions_test" (by decide) (by decide)).trans (by rfl)

/-! ## C9: process-wide registration happens first and survives failure -/

/-- Claim C9: `Environment.__init__` installs the new record as the
process-wide active configuration (`G.Env`) before any resolution, validation
or fingerprinting runs, and this registration is never undone: after any run —
including every run whose workflow raises a fatal error — `G.Env` still points
at a record; in particular, when the very first workflow stage
(`update_custom_environment_params`) fails, `G.Env` holds exactly the freshly
assigned, not-yet-resolved record. -/
theorem C9_global_env_registration (fs : String → Option Value)
    (csvFs : String → Option (List String))
    (applyF : String → Value → Value → Value × Value)
    (subPaths : String → String) (kw : Kwargs) :
    ((environmentInit fs csvFs applyF subPaths kw).gEnv.isSome = true)
  ∧ (∀ err, updateCustomEnvironmentParams fs (initEnv kw) = .error err →
      (environmentInit fs csvFs applyF subPaths kw).gEnv
        = some (initEnv kw)) := by
  constructor
  · rw [environmentInit]
    repeat (first | rfl | split)
  · intro err herr
    rw [environmentInit, herr]

/-- Witness for C9: a run whose first workflow stage fails (a non-string,
non-null `environment_params_path`) still leaves `G.Env` pointing at the
fresh record. -/
theorem C9_global_env_registration_witness :
    (environmentInit (fun _ => Option.none) (fun _ => Option.none)
        (fun _ t _ => (t, Value.none)) (fun k => k)
        { environment_params_path := .nat 5 }).gEnv
      = some (initEnv { environment_params_path := .nat 5 }) :=
  (C9_global_env_registration (fun _ => Option.none) (fun _ => Option.none)
      (fun _ t _ => (t, Value.none)) (fun k => k)
      { environment_params_path := .nat 5 }).2
    (.typeError [.nat 5]) rfl

end HPH
